import Mathlib

/-!
# MediBook Node API (`backend-node/server.js`)

A shallow embedding of the Express handlers of `server.js` over an explicit
model of the four PostgreSQL tables they query (`patients`, `doctors`,
`admins`, `appointments`), followed by theorems about them.

Modelling conventions.

* A table is the list of its rows.
* The table definitions (DDL) are not part of the repository.  Whatever they
  make the database refuse is a parameter, `Schema`: for each writing
  statement a function that yields the error message the database raises, or
  `none` when the statement is accepted.  A refused statement changes no row.
  The error the database raises for a reading statement (a parameter it cannot
  take, a lost connection) is a parameter as well, `Schema.rejectSelect`.
* Values the database itself produces for an inserted row (the generated `id`,
  the `created_at` default) and the salt drawn by `bcrypt.hash` are passed to
  the handler as arguments.
* `bcrypt` is a parameter, `Bcrypt`; both of its functions may throw.
* `ORDER BY` fixes the order of the returned rows only up to the listed keys.
  A listing route is therefore a relation between the store and its answer:
  every arrangement of the selected rows that is sorted on the listed keys is
  an answer the route may give.
* Every handler body is a `try`/`catch`: an error raised by the database or
  by `bcrypt` is answered with the status of the `catch` branch.
* Ids, dates and times in request bodies are numbers; a password may be
  missing from the body.
-/

namespace MediBook

/-! ## Tables -/

/-- Row of `patients`. -/
structure Patient where
  id : Nat
  name : String
  email : String
  password : String
  phone : String
  created_at : Nat
deriving DecidableEq

/-- Row of `doctors`. -/
structure Doctor where
  id : Nat
  name : String
  email : String
  password : String
  phone : String
  specialization : String
  created_at : Nat
deriving DecidableEq

/-- Row of `admins`. -/
structure Admin where
  id : Nat
  name : String
  email : String
  password : String
  phone : String
deriving DecidableEq

/-- Row of `appointments`: the columns `server.js` names.  `appointment_date`
is a day number, `appointment_time` a time of day; `status` is free text. -/
structure Appointment where
  id : Nat
  patient_id : Nat
  doctor_id : Nat
  appointment_date : Nat
  appointment_time : Nat
  status : String
  notes : String
deriving DecidableEq

/-- The database: the four tables. -/
structure Db where
  patients : List Patient
  doctors : List Doctor
  admins : List Admin
  appointments : List Appointment
deriving DecidableEq

/-- The reading statements of `server.js`, with their parameters. -/
inductive Select where
  | patients
  | patientByEmail (email : String)
  | doctors
  | doctorByEmail (email : String)
  | adminByEmail (email : String)
  | appointments
  | appointmentsOfPatient (id : Nat)
  | appointmentsOfDoctor (id : Nat)
deriving DecidableEq

/-- What the database contributes beyond its rows: the column default of
`appointments.status`, for each writing statement the error the database
raises for it, and the error it raises for a reading statement (`none`:
the statement is carried out). -/
structure Schema where
  defaultStatus : String
  rejectPatient : Db → Patient → Option String
  rejectDoctor : Db → Doctor → Option String
  rejectAdmin : Db → Admin → Option String
  rejectAppointment : Db → Appointment → Option String
  rejectStatusUpdate : Db → Nat → String → Option String
  rejectSelect : Select → Option String

/-- The two functions of the `bcrypt` package the handlers call.  `hash` takes
the password and the salt it draws.  The password is `none` when the body has
none; either function may throw, which is the `error` result. -/
structure Bcrypt where
  hash : Option String → Nat → Except String String
  compare : Option String → String → Except String Bool

/-- The row lists `ORDER BY` admits for the selected `rows`: every arrangement
of them that is sorted on the keys, `r` being the order the keys induce.  Rows
that tie on the keys may come in any order. -/
def OrderedBy {α : Type} (r : α → α → Prop) (rows out : List α) : Prop :=
  out.Perm rows ∧ out.Sorted r

instance {α : Type} [DecidableEq α] (r : α → α → Prop) [DecidableRel r]
    (rows out : List α) : Decidable (OrderedBy r rows out) := by
  unfold OrderedBy; infer_instance

/-- Answer of a listing route: the rows with status 200, or `{ error }` with
status 500 when the query raised an error. -/
inductive ListResponse (α : Type) where
  | rows (out : List α)
  | error (msg : String)
deriving DecidableEq

/-- HTTP status of a listing answer. -/
def ListResponse.status {α : Type} : ListResponse α → Nat
  | .rows _ => 200
  | .error _ => 500

/-! ## Appointment routes -/

/-- Body of `POST /api/appointments`. -/
structure CreateRequest where
  patient_id : Nat
  doctor_id : Nat
  appointment_date : Nat
  appointment_time : Nat
  notes : String
deriving DecidableEq

/-- Response of the two writing appointment routes:
`{ success, appointment }` or `{ success: false, error }`, with the HTTP
status.  `appointment` is `result.rows[0]`, absent when there is no row. -/
structure AppointmentResponse where
  status : Nat
  success : Bool
  appointment : Option Appointment
  error : Option String
deriving DecidableEq

/-- The row `INSERT INTO appointments (patient_id, doctor_id, appointment_date,
appointment_time, notes) VALUES (...)` builds: the five supplied columns, the
generated `id`, and the default `status`. -/
def newAppointment (S : Schema) (genId : Nat) (req : CreateRequest) : Appointment :=
  { id := genId
    patient_id := req.patient_id
    doctor_id := req.doctor_id
    appointment_date := req.appointment_date
    appointment_time := req.appointment_time
    status := S.defaultStatus
    notes := req.notes }

/-- Route `app.post('/api/appointments')`: one `INSERT ... RETURNING *`; the inserted
row is returned with `success: true`, and any error the database raises is
answered with status 400. -/
def createAppointment (S : Schema) (genId : Nat) (db : Db) (req : CreateRequest) :
    Db × AppointmentResponse :=
  let row := newAppointment S genId req
  match S.rejectAppointment db row with
  | none =>
    ({ db with appointments := db.appointments ++ [row] },
     { status := 200, success := true, appointment := some row, error := none })
  | some msg =>
    (db, { status := 400, success := false, appointment := none, error := some msg })

/-- The rows after `UPDATE appointments SET status = $1 WHERE id = $2`. -/
def setStatus (rows : List Appointment) (id : Nat) (status : String) : List Appointment :=
  rows.map fun a => if a.id = id then { a with status := status } else a

/-- Route `app.put('/api/appointments/:id/status')`: one
`UPDATE ... WHERE id = $2 RETURNING *`; the answer is `success: true` with
`result.rows[0]`, the first updated row if there is one; any error the database
raises is answered with status 400. -/
def updateAppointmentStatus (S : Schema) (db : Db) (id : Nat) (status : String) :
    Db × AppointmentResponse :=
  match S.rejectStatusUpdate db id status with
  | none =>
    let updated := setStatus db.appointments id status
    let returned := updated.filter fun a => a.id = id
    ({ db with appointments := updated },
     { status := 200, success := true, appointment := returned.head?, error := none })
  | some msg =>
    (db, { status := 400, success := false, appointment := none, error := some msg })

/-- Row of `GET /api/appointments`. -/
structure AppointmentListing where
  id : Nat
  appointment_date : Nat
  appointment_time : Nat
  status : String
  notes : String
  patient_name : String
  patient_phone : String
  doctor_name : String
  specialization : String
deriving DecidableEq

/-- Row of `GET /api/appointments/patient/:id`: `a.*` with the doctor's name
and specialization. -/
structure PatientAppointment where
  appointment : Appointment
  doctor_name : String
  specialization : String
deriving DecidableEq

/-- Row of `GET /api/appointments/doctor/:id`: `a.*` with the patient's name
and phone. -/
structure DoctorAppointment where
  appointment : Appointment
  patient_name : String
  patient_phone : String
deriving DecidableEq

/-- Descending order on `(date, time)`:
`ORDER BY a.appointment_date DESC, a.appointment_time DESC`. -/
def dateTimeDesc (d1 t1 d2 t2 : Nat) : Prop :=
  d2 < d1 ∨ (d2 = d1 ∧ t2 ≤ t1)

instance (d1 t1 d2 t2 : Nat) : Decidable (dateTimeDesc d1 t1 d2 t2) := by
  unfold dateTimeDesc; infer_instance

/-- The rows `FROM appointments a JOIN patients p ON a.patient_id = p.id JOIN
doctors d ON a.doctor_id = d.id` selects for `GET /api/appointments`. -/
def joinedAppointments (db : Db) : List AppointmentListing :=
  db.appointments.flatMap fun a =>
    (db.patients.filter fun p => a.patient_id = p.id).flatMap fun p =>
      (db.doctors.filter fun d => a.doctor_id = d.id).map fun d =>
        ({ id := a.id
           appointment_date := a.appointment_date
           appointment_time := a.appointment_time
           status := a.status
           notes := a.notes
           patient_name := p.name
           patient_phone := p.phone
           doctor_name := d.name
           specialization := d.specialization } : AppointmentListing)

/-- Route `app.get('/api/appointments')`: the answers it may give.  The rows
are the appointments joined with their patient and their doctor,
`ORDER BY a.appointment_date DESC, a.appointment_time DESC`; an error of the
query is answered with status 500. -/
def listAppointments (S : Schema) (db : Db) : ListResponse AppointmentListing → Prop
  | .rows out =>
    S.rejectSelect Select.appointments = none ∧
    OrderedBy (fun x y => dateTimeDesc x.appointment_date x.appointment_time
      y.appointment_date y.appointment_time) (joinedAppointments db) out
  | .error msg => S.rejectSelect Select.appointments = some msg

/-- The rows `FROM appointments a JOIN doctors d ON a.doctor_id = d.id WHERE
a.patient_id = $1` selects. -/
def appointmentsOfPatient (db : Db) (id : Nat) : List PatientAppointment :=
  (db.appointments.flatMap fun a =>
    (db.doctors.filter fun d => a.doctor_id = d.id).map fun d =>
      ({ appointment := a, doctor_name := d.name, specialization := d.specialization } :
        PatientAppointment)).filter fun r => r.appointment.patient_id = id

/-- Route `app.get('/api/appointments/patient/:id')`: the answers it may give.
The rows are the patient's appointments joined with their doctor,
`ORDER BY a.appointment_date DESC`; an error of the query is answered with
status 500. -/
def listByPatient (S : Schema) (db : Db) (id : Nat) : ListResponse PatientAppointment → Prop
  | .rows out =>
    S.rejectSelect (Select.appointmentsOfPatient id) = none ∧
    OrderedBy (fun x y => y.appointment.appointment_date ≤ x.appointment.appointment_date)
      (appointmentsOfPatient db id) out
  | .error msg => S.rejectSelect (Select.appointmentsOfPatient id) = some msg

/-- The rows `FROM appointments a JOIN patients p ON a.patient_id = p.id WHERE
a.doctor_id = $1` selects. -/
def appointmentsOfDoctor (db : Db) (id : Nat) : List DoctorAppointment :=
  (db.appointments.flatMap fun a =>
    (db.patients.filter fun p => a.patient_id = p.id).map fun p =>
      ({ appointment := a, patient_name := p.name, patient_phone := p.phone } :
        DoctorAppointment)).filter fun r => r.appointment.doctor_id = id

/-- Route `app.get('/api/appointments/doctor/:id')`: the answers it may give.
The rows are the doctor's appointments joined with their patient,
`ORDER BY a.appointment_date DESC`; an error of the query is answered with
status 500. -/
def listByDoctor (S : Schema) (db : Db) (id : Nat) : ListResponse DoctorAppointment → Prop
  | .rows out =>
    S.rejectSelect (Select.appointmentsOfDoctor id) = none ∧
    OrderedBy (fun x y => y.appointment.appointment_date ≤ x.appointment.appointment_date)
      (appointmentsOfDoctor db id) out
  | .error msg => S.rejectSelect (Select.appointmentsOfDoctor id) = some msg

instance (S : Schema) (db : Db) (resp : ListResponse AppointmentListing) :
    Decidable (listAppointments S db resp) := by
  cases resp <;> unfold listAppointments <;> infer_instance

instance (S : Schema) (db : Db) (id : Nat) (resp : ListResponse PatientAppointment) :
    Decidable (listByPatient S db id resp) := by
  cases resp <;> unfold listByPatient <;> infer_instance

instance (S : Schema) (db : Db) (id : Nat) (resp : ListResponse DoctorAppointment) :
    Decidable (listByDoctor S db id resp) := by
  cases resp <;> unfold listByDoctor <;> infer_instance

/-! ## Patient, doctor and admin routes -/

/-- Scalar JSON value of a response member. -/
inductive Val where
  | num (n : Nat)
  | str (s : String)
  | bool (b : Bool)
deriving DecidableEq

/-- JSON object with scalar members, in the order they are written. -/
abbrev Record := List (String × Val)

/-- Response of a register or login route: the HTTP status, the scalar members
of the body (`success`, `message`, `error`) and, on success, the member that
holds the account (`patient`, `doctor` or `admin`). -/
structure AuthResponse where
  status : Nat
  fields : Record
  account : Option (String × Record)
deriving DecidableEq

/-- Every member name that occurs in a register or login response. -/
def AuthResponse.keys (r : AuthResponse) : List String :=
  r.fields.map Prod.fst ++
    match r.account with
    | some (k, rec) => k :: rec.map Prod.fst
    | none => []

/-- The answer of a `catch` branch of a register or login route:
`{ success: false, error: err.message }` with the branch's status. -/
def caughtResponse (status : Nat) (msg : String) : AuthResponse :=
  { status := status
    fields := [("success", Val.bool false), ("error", Val.str msg)]
    account := none }

/-- The 404 answer of a login route. -/
def notFoundResponse (message : String) : AuthResponse :=
  { status := 404
    fields := [("success", Val.bool false), ("message", Val.str message)]
    account := none }

/-- The 401 answer of a login route. -/
def invalidPasswordResponse : AuthResponse :=
  { status := 401
    fields := [("success", Val.bool false), ("message", Val.str "Invalid password")]
    account := none }

/-- The success answer of a register or login route, for the account member
given. -/
def accountResponse (key : String) (account : Record) : AuthResponse :=
  { status := 200, fields := [("success", Val.bool true)], account := some (key, account) }

/-- Body of the patient and admin register routes. -/
structure RegisterRequest where
  name : String
  email : String
  password : Option String
  phone : String
deriving DecidableEq

/-- Body of the doctor register route; `specialization` may be missing. -/
structure RegisterDoctorRequest where
  name : String
  email : String
  password : Option String
  phone : String
  specialization : Option String
deriving DecidableEq

/-- Row of `GET /api/patients`: the columns
`SELECT id, name, email, phone, created_at`. -/
structure PatientListing where
  id : Nat
  name : String
  email : String
  phone : String
  created_at : Nat
deriving DecidableEq

/-- The listed columns of a patient row. -/
def Patient.listed (p : Patient) : PatientListing :=
  { id := p.id, name := p.name, email := p.email, phone := p.phone,
    created_at := p.created_at }

/-- The JSON object `res.json` writes for a listed patient. -/
def PatientListing.toRecord (p : PatientListing) : Record :=
  [("id", Val.num p.id), ("name", Val.str p.name), ("email", Val.str p.email),
   ("phone", Val.str p.phone), ("created_at", Val.num p.created_at)]

/-- Route `app.get('/api/patients')`: the answers it may give.  The rows are
`SELECT id, name, email, phone, created_at FROM patients ORDER BY id`; an error
of the query is answered with status 500. -/
def listPatients (S : Schema) (db : Db) : ListResponse PatientListing → Prop
  | .rows out =>
    S.rejectSelect Select.patients = none ∧
    OrderedBy (fun x y => x.id ≤ y.id) (db.patients.map Patient.listed) out
  | .error msg => S.rejectSelect Select.patients = some msg

/-- Route `app.post('/api/auth/register/patient')`: hash the password, then
`INSERT INTO patients (name, email, password, phone) ... RETURNING id, name,
email, phone`; an error of `bcrypt.hash` or of the database is answered with
status 400. -/
def registerPatient (S : Schema) (B : Bcrypt) (genId now salt : Nat) (db : Db)
    (req : RegisterRequest) : Db × AuthResponse :=
  match B.hash req.password salt with
  | .error msg => (db, caughtResponse 400 msg)
  | .ok hashedPassword =>
    let row : Patient :=
      { id := genId, name := req.name, email := req.email, password := hashedPassword,
        phone := req.phone, created_at := now }
    match S.rejectPatient db row with
    | none =>
      ({ db with patients := db.patients ++ [row] },
       accountResponse "patient" [("id", Val.num row.id), ("name", Val.str row.name),
         ("email", Val.str row.email), ("phone", Val.str row.phone)])
    | some msg => (db, caughtResponse 400 msg)

/-- Route `app.post('/api/auth/login/patient')`: `SELECT * FROM patients WHERE
email = $1`; 404 when no row comes back, else `bcrypt.compare` against the
first row, 401 when it is false, else the account; an error of the query or of
`bcrypt.compare` is answered with status 500. -/
def loginPatient (S : Schema) (B : Bcrypt) (db : Db) (email : String)
    (password : Option String) : AuthResponse :=
  match S.rejectSelect (Select.patientByEmail email) with
  | some msg => caughtResponse 500 msg
  | none =>
    let rows := db.patients.filter fun p => p.email = email
    match rows with
    | [] => notFoundResponse "Patient not found"
    | patient :: _ =>
      match B.compare password patient.password with
      | .error msg => caughtResponse 500 msg
      | .ok validPassword =>
        if !validPassword then invalidPasswordResponse
        else
          accountResponse "patient" [("id", Val.num patient.id),
            ("name", Val.str patient.name), ("email", Val.str patient.email)]

/-- Row of `GET /api/doctors`: the columns
`SELECT id, name, email, phone, specialization, created_at`. -/
structure DoctorListing where
  id : Nat
  name : String
  email : String
  phone : String
  specialization : String
  created_at : Nat
deriving DecidableEq

/-- The listed columns of a doctor row. -/
def Doctor.listed (d : Doctor) : DoctorListing :=
  { id := d.id, name := d.name, email := d.email, phone := d.phone,
    specialization := d.specialization, created_at := d.created_at }

/-- The JSON object `res.json` writes for a listed doctor. -/
def DoctorListing.toRecord (d : DoctorListing) : Record :=
  [("id", Val.num d.id), ("name", Val.str d.name), ("email", Val.str d.email),
   ("phone", Val.str d.phone), ("specialization", Val.str d.specialization),
   ("created_at", Val.num d.created_at)]

/-- Route `app.get('/api/doctors')`: the answers it may give.  The rows are
`SELECT id, name, email, phone, specialization, created_at FROM doctors ORDER
BY id`; an error of the query is answered with status 500. -/
def listDoctors (S : Schema) (db : Db) : ListResponse DoctorListing → Prop
  | .rows out =>
    S.rejectSelect Select.doctors = none ∧
    OrderedBy (fun x y => x.id ≤ y.id) (db.doctors.map Doctor.listed) out
  | .error msg => S.rejectSelect Select.doctors = some msg

instance (S : Schema) (db : Db) (resp : ListResponse PatientListing) :
    Decidable (listPatients S db resp) := by
  cases resp <;> unfold listPatients <;> infer_instance

instance (S : Schema) (db : Db) (resp : ListResponse DoctorListing) :
    Decidable (listDoctors S db resp) := by
  cases resp <;> unfold listDoctors <;> infer_instance

/-- The JavaScript `specialization || 'General'`: a missing or empty string is
falsy. -/
def specializationOrGeneral : Option String → String
  | some s => if s = "" then "General" else s
  | none => "General"

/-- Route `app.post('/api/auth/register/doctor')`: as for a patient, with the
specialization. -/
def registerDoctor (S : Schema) (B : Bcrypt) (genId now salt : Nat) (db : Db)
    (req : RegisterDoctorRequest) : Db × AuthResponse :=
  match B.hash req.password salt with
  | .error msg => (db, caughtResponse 400 msg)
  | .ok hashedPassword =>
    let row : Doctor :=
      { id := genId, name := req.name, email := req.email, password := hashedPassword,
        phone := req.phone, specialization := specializationOrGeneral req.specialization,
        created_at := now }
    match S.rejectDoctor db row with
    | none =>
      ({ db with doctors := db.doctors ++ [row] },
       accountResponse "doctor" [("id", Val.num row.id), ("name", Val.str row.name),
         ("email", Val.str row.email), ("phone", Val.str row.phone),
         ("specialization", Val.str row.specialization)])
    | some msg => (db, caughtResponse 400 msg)

/-- Route `app.post('/api/auth/login/doctor')`: as for a patient, over
`doctors`, the account carrying the specialization as well. -/
def loginDoctor (S : Schema) (B : Bcrypt) (db : Db) (email : String)
    (password : Option String) : AuthResponse :=
  match S.rejectSelect (Select.doctorByEmail email) with
  | some msg => caughtResponse 500 msg
  | none =>
    let rows := db.doctors.filter fun d => d.email = email
    match rows with
    | [] => notFoundResponse "Doctor not found"
    | doctor :: _ =>
      match B.compare password doctor.password with
      | .error msg => caughtResponse 500 msg
      | .ok validPassword =>
        if !validPassword then invalidPasswordResponse
        else
          accountResponse "doctor" [("id", Val.num doctor.id),
            ("name", Val.str doctor.name), ("email", Val.str doctor.email),
            ("specialization", Val.str doctor.specialization)]

/-- Route `app.post('/api/auth/register/admin')`: as for a patient, over
`admins`. -/
def registerAdmin (S : Schema) (B : Bcrypt) (genId salt : Nat) (db : Db)
    (req : RegisterRequest) : Db × AuthResponse :=
  match B.hash req.password salt with
  | .error msg => (db, caughtResponse 400 msg)
  | .ok hashedPassword =>
    let row : Admin :=
      { id := genId, name := req.name, email := req.email, password := hashedPassword,
        phone := req.phone }
    match S.rejectAdmin db row with
    | none =>
      ({ db with admins := db.admins ++ [row] },
       accountResponse "admin" [("id", Val.num row.id), ("name", Val.str row.name),
         ("email", Val.str row.email), ("phone", Val.str row.phone)])
    | some msg => (db, caughtResponse 400 msg)

/-- Route `app.post('/api/auth/login/admin')`: as for a patient, over
`admins`. -/
def loginAdmin (S : Schema) (B : Bcrypt) (db : Db) (email : String)
    (password : Option String) : AuthResponse :=
  match S.rejectSelect (Select.adminByEmail email) with
  | some msg => caughtResponse 500 msg
  | none =>
    let rows := db.admins.filter fun a => a.email = email
    match rows with
    | [] => notFoundResponse "Admin not found"
    | admin :: _ =>
      match B.compare password admin.password with
      | .error msg => caughtResponse 500 msg
      | .ok validPassword =>
        if !validPassword then invalidPasswordResponse
        else
          accountResponse "admin" [("id", Val.num admin.id),
            ("name", Val.str admin.name), ("email", Val.str admin.email)]

/-! ## The API as a transition system -/

/-- One request to the API, with the values the database and `bcrypt` draw
while serving it. -/
inductive Op where
  | listPatients
  | registerPatient (genId now salt : Nat) (req : RegisterRequest)
  | loginPatient (email : String) (password : Option String)
  | listDoctors
  | registerDoctor (genId now salt : Nat) (req : RegisterDoctorRequest)
  | loginDoctor (email : String) (password : Option String)
  | registerAdmin (genId salt : Nat) (req : RegisterRequest)
  | loginAdmin (email : String) (password : Option String)
  | listAppointments
  | createAppointment (genId : Nat) (req : CreateRequest)
  | listByPatient (id : Nat)
  | listByDoctor (id : Nat)
  | updateAppointmentStatus (id : Nat) (status : String)

/-- The database after serving one request.  The routes that only `SELECT`
leave it as it is. -/
def step (S : Schema) (B : Bcrypt) (db : Db) : Op → Db
  | .registerPatient genId now salt req => (registerPatient S B genId now salt db req).1
  | .registerDoctor genId now salt req => (registerDoctor S B genId now salt db req).1
  | .registerAdmin genId salt req => (registerAdmin S B genId salt db req).1
  | .createAppointment genId req => (createAppointment S genId db req).1
  | .updateAppointmentStatus id status => (updateAppointmentStatus S db id status).1
  | .listPatients | .loginPatient _ _ | .listDoctors | .loginDoctor _ _
  | .loginAdmin _ _ | .listAppointments | .listByPatient _ | .listByDoctor _ => db

/-- The database after serving a sequence of requests, one after the other. -/
def run (S : Schema) (B : Bcrypt) (db : Db) (ops : List Op) : Db :=
  ops.foldl (step S B) db

/-! ## Vocabulary of the specification -/

/-- Active appointment of the specification: status `Requested` or
`Confirmed`. -/
def isActive (a : Appointment) : Prop :=
  a.status = "Requested" ∨ a.status = "Confirmed"

instance (a : Appointment) : Decidable (isActive a) := by
  unfold isActive; infer_instance

/-- The status changes the specification's state machine allows. -/
def legalTransition (current requested : String) : Prop :=
  (current = "Requested" ∧ requested = "Confirmed") ∨
  (current = "Requested" ∧ requested = "Cancelled") ∨
  (current = "Confirmed" ∧ requested = "Cancelled") ∨
  (current = "Confirmed" ∧ requested = "Completed") ∨
  (current = "Confirmed" ∧ requested = "NoShow")

instance (c r : String) : Decidable (legalTransition c r) := by
  unfold legalTransition; infer_instance

/-- What an `UPDATE ... SET status` does to one row: only `status` can change,
and a row with another id is untouched. -/
def statusOnly (id : Nat) (a a' : Appointment) : Prop :=
  a' = { a with status := a'.status } ∧ (a.id ≠ id → a' = a)

/-- An appointment with its `status` blanked: what a row is apart from its
status. -/
def withoutStatus (a : Appointment) : Appointment :=
  { a with status := "" }

/-- A patient row with the stored hash blanked. -/
def Patient.withoutPassword (p : Patient) : Patient :=
  { p with password := "" }

/-- A doctor row with the stored hash blanked. -/
def Doctor.withoutPassword (d : Doctor) : Doctor :=
  { d with password := "" }

/-- An admin row with the stored hash blanked. -/
def Admin.withoutPassword (a : Admin) : Admin :=
  { a with password := "" }

/-- Outcome of the password check of a patient login: none when no row has the
email, else what `bcrypt.compare` gives against the first such row. -/
def patientPasswordCheck (B : Bcrypt) (db : Db) (email : String)
    (password : Option String) : Option (Except String Bool) :=
  (db.patients.find? fun p => p.email = email).map fun p => B.compare password p.password

/-- Outcome of the password check of a doctor login. -/
def doctorPasswordCheck (B : Bcrypt) (db : Db) (email : String)
    (password : Option String) : Option (Except String Bool) :=
  (db.doctors.find? fun d => d.email = email).map fun d => B.compare password d.password

/-- Outcome of the password check of an admin login. -/
def adminPasswordCheck (B : Bcrypt) (db : Db) (email : String)
    (password : Option String) : Option (Except String Bool) :=
  (db.admins.find? fun a => a.email = email).map fun a => B.compare password a.password

/-- A database that refuses nothing, with `Requested` as the default status. -/
def openSchema : Schema :=
  { defaultStatus := "Requested"
    rejectPatient := fun _ _ => none
    rejectDoctor := fun _ _ => none
    rejectAdmin := fun _ _ => none
    rejectAppointment := fun _ _ => none
    rejectStatusUpdate := fun _ _ _ => none
    rejectSelect := fun _ => none }

/-- As `openSchema`, except that a lookup by an email with a NUL character
raises an error, as a PostgreSQL text parameter cannot hold one. -/
def nulCheckingSchema : Schema :=
  { openSchema with
    rejectSelect := fun q =>
      match q with
      | .patientByEmail email | .doctorByEmail email | .adminByEmail email =>
        if email.data.contains (Char.ofNat 0) then
          some "invalid byte sequence for encoding UTF8: 0x00"
        else none
      | _ => none }

/-! ## Concrete stores used in the evaluations below

Day 19783 is 2024-03-01; times are minutes after midnight (540 is 09:00). -/

/-- Patient 1. -/
def ann : Patient :=
  { id := 1, name := "Ann", email := "ann@x.org", password := "pw#3", phone := "100",
    created_at := 0 }

/-- Patient 2. -/
def bob : Patient :=
  { id := 2, name := "Bob", email := "bob@x.org", password := "h2", phone := "200",
    created_at := 0 }

/-- Doctor 1. -/
def drDee : Doctor :=
  { id := 1, name := "Dee", email := "dee@x.org", password := "h3", phone := "300",
    specialization := "General", created_at := 0 }

/-- Appointment 1: Ann with doctor 1 on day 19783 at 09:00, `Requested`. -/
def apptNine : Appointment :=
  { id := 1, patient_id := 1, doctor_id := 1, appointment_date := 19783,
    appointment_time := 540, status := "Requested", notes := "" }

/-- Appointment 2: Ann with doctor 1 on day 19783 at 10:00, `Requested`. -/
def apptTen : Appointment :=
  { id := 2, patient_id := 1, doctor_id := 1, appointment_date := 19783,
    appointment_time := 600, status := "Requested", notes := "" }

/-- Two patients, one doctor, and appointment 1. -/
def bookedDb : Db :=
  { patients := [ann, bob], doctors := [drDee], admins := [], appointments := [apptNine] }

/-- The same with appointment 1 already `Cancelled`. -/
def cancelledDb : Db :=
  { patients := [ann, bob], doctors := [drDee], admins := [],
    appointments := [{ apptNine with status := "Cancelled" }] }

/-- Appointments 1 and 2 stored in the order they were made. -/
def sameDayDb : Db :=
  { patients := [ann, bob], doctors := [drDee], admins := [],
    appointments := [apptNine, apptTen] }

/-- Bob asks for doctor 1 on day 19783 at 09:00, the slot of appointment 1. -/
def sameSlotRequest : CreateRequest :=
  { patient_id := 2, doctor_id := 1, appointment_date := 19783, appointment_time := 540,
    notes := "" }

/-- Ann asks for doctor 1 on day 19783 again, at 09:30. -/
def sameDayRequest : CreateRequest :=
  { patient_id := 1, doctor_id := 1, appointment_date := 19783, appointment_time := 570,
    notes := "" }

/-- A request naming patient 7 and doctor 9, neither of which is stored. -/
def strangerRequest : CreateRequest :=
  { patient_id := 7, doctor_id := 9, appointment_date := 19783, appointment_time := 660,
    notes := "" }

/-- Appointment 1 of the store `lateFirstDb`: Ann with doctor 1 on day 19783 at
10:00. -/
def lateFirst : Appointment :=
  { id := 1, patient_id := 1, doctor_id := 1, appointment_date := 19783,
    appointment_time := 600, status := "Requested", notes := "" }

/-- Appointment 2 of the store `lateFirstDb`: Ann with doctor 1 on day 19783 at
09:00. -/
def earlySecond : Appointment :=
  { id := 2, patient_id := 1, doctor_id := 1, appointment_date := 19783,
    appointment_time := 540, status := "Requested", notes := "" }

/-- Two appointments of Ann with doctor 1 on one day, the 10:00 one made
first. -/
def lateFirstDb : Db :=
  { patients := [ann, bob], doctors := [drDee], admins := [],
    appointments := [lateFirst, earlySecond] }

/-- A stand-in for `bcrypt` used to evaluate the routes: the hash is the
password followed by `#` and the salt digit, a password verifies against a
hash that starts with it, and both functions throw when the password is
missing, as the package does. -/
def toyBcrypt : Bcrypt :=
  { hash := fun pw salt =>
      match pw with
      | none => .error "data and salt arguments required"
      | some pw => .ok (pw ++ "#" ++ toString (salt % 10))
    compare := fun pw h =>
      match pw with
      | none => .error "data and hash arguments required"
      | some pw => .ok (decide (h.data.take pw.data.length = pw.data)) }

/-- The store `bookedDb` after Ann's password was hashed again with another
salt. -/
def rehashedDb : Db :=
  { bookedDb with patients := [{ ann with password := "pw#7" }, bob] }

/-! ## Lemmas on the appointment routes -/

theorem createAppointment_of_accepted (S : Schema) (genId : Nat) (db : Db) (req : CreateRequest)
    (h : S.rejectAppointment db (newAppointment S genId req) = none) :
    createAppointment S genId db req =
      ({ db with appointments := db.appointments ++ [newAppointment S genId req] },
       { status := 200, success := true, appointment := some (newAppointment S genId req),
         error := none }) := by
  simp [createAppointment, h]

theorem createAppointment_of_rejected (S : Schema) (genId : Nat) (db : Db) (req : CreateRequest)
    (msg : String) (h : S.rejectAppointment db (newAppointment S genId req) = some msg) :
    createAppointment S genId db req =
      (db, { status := 400, success := false, appointment := none, error := some msg }) := by
  simp [createAppointment, h]

theorem createAppointment_status (S : Schema) (genId : Nat) (db : Db) (req : CreateRequest) :
    (createAppointment S genId db req).2.status = 200 ∨
    (createAppointment S genId db req).2.status = 400 := by
  cases h : S.rejectAppointment db (newAppointment S genId req) with
  | none => left; rw [createAppointment_of_accepted S genId db req h]
  | some msg => right; rw [createAppointment_of_rejected S genId db req msg h]

theorem updateAppointmentStatus_of_accepted (S : Schema) (db : Db) (id : Nat) (status : String)
    (h : S.rejectStatusUpdate db id status = none) :
    updateAppointmentStatus S db id status =
      ({ db with appointments := setStatus db.appointments id status },
       { status := 200, success := true,
         appointment := ((setStatus db.appointments id status).filter fun a => a.id = id).head?,
         error := none }) := by
  simp [updateAppointmentStatus, h]

theorem updateAppointmentStatus_of_rejected (S : Schema) (db : Db) (id : Nat) (status : String)
    (msg : String) (h : S.rejectStatusUpdate db id status = some msg) :
    updateAppointmentStatus S db id status =
      (db, { status := 400, success := false, appointment := none, error := some msg }) := by
  simp [updateAppointmentStatus, h]

theorem updateAppointmentStatus_status (S : Schema) (db : Db) (id : Nat) (status : String) :
    (updateAppointmentStatus S db id status).2.status = 200 ∨
    (updateAppointmentStatus S db id status).2.status = 400 := by
  cases h : S.rejectStatusUpdate db id status with
  | none => left; rw [updateAppointmentStatus_of_accepted S db id status h]
  | some msg => right; rw [updateAppointmentStatus_of_rejected S db id status msg h]

/-- The rows an update returns when some row has the id: the first of them
carries the id and the new status. -/
theorem returned_head_of_mem (rows : List Appointment) (id : Nat) (status : String)
    (h : ∃ a ∈ rows, a.id = id) :
    ∃ b, ((setStatus rows id status).filter fun a => a.id = id).head? = some b ∧
      b.id = id ∧ b.status = status := by
  induction rows with
  | nil => obtain ⟨a, ha, _⟩ := h; cases ha
  | cons x xs ih =>
    by_cases hx : x.id = id
    · exact ⟨{ x with status := status }, by simp [setStatus, hx], hx, rfl⟩
    · obtain ⟨a, ha, haid⟩ := h
      have hmem : a ∈ xs := by
        rcases List.mem_cons.mp ha with h1 | h1
        · exact absurd (h1 ▸ haid) hx
        · exact h1
      obtain ⟨b, hb, hbid, hbs⟩ := ih ⟨a, hmem, haid⟩
      refine ⟨b, ?_, hbid, hbs⟩
      simpa [setStatus, hx] using hb

/-- An update whose id matches no row returns no row and changes none. -/
theorem setStatus_of_unknown (rows : List Appointment) (id : Nat) (status : String)
    (h : ∀ a ∈ rows, a.id ≠ id) :
    setStatus rows id status = rows ∧
      ((setStatus rows id status).filter fun a => a.id = id) = [] := by
  induction rows with
  | nil => simp [setStatus]
  | cons x xs ih =>
    have hx : x.id ≠ id := h x (List.mem_cons_self _ _)
    have ih2 := ih (fun a ha => h a (List.mem_cons_of_mem _ ha))
    unfold setStatus at ih2 ⊢
    constructor
    · simp [hx, ih2.1]
    · simp [hx, ih2.1]
      intro a ha
      exact h a (List.mem_cons_of_mem _ ha)

theorem setStatus_forall₂ (rows : List Appointment) (id : Nat) (status : String) :
    List.Forall₂ (statusOnly id) rows (setStatus rows id status) := by
  induction rows with
  | nil => exact List.Forall₂.nil
  | cons x xs ih =>
    unfold setStatus at ih ⊢
    rw [List.map_cons]
    refine List.Forall₂.cons ?_ ih
    by_cases hx : x.id = id
    · simp [statusOnly, hx]
    · simp [statusOnly, hx]

theorem statusOnly_refl_forall₂ (rows : List Appointment) (id : Nat) :
    List.Forall₂ (statusOnly id) rows rows := by
  induction rows with
  | nil => exact List.Forall₂.nil
  | cons x xs ih => exact List.Forall₂.cons ⟨rfl, fun _ => rfl⟩ ih


/-- A status update whose id matches no stored appointment, when the database
accepts the statement: the answer is 200 with `success: true` and no
appointment, and the store is unchanged. -/
theorem updateAppointmentStatus_of_unknown (S : Schema) (db : Db) (id : Nat) (status : String)
    (hacc : S.rejectStatusUpdate db id status = none)
    (h : ∀ a ∈ db.appointments, a.id ≠ id) :
    updateAppointmentStatus S db id status =
      (db, { status := 200, success := true, appointment := none, error := none }) := by
  obtain ⟨h1, h2⟩ := setStatus_of_unknown db.appointments id status h
  rw [updateAppointmentStatus_of_accepted S db id status hacc, h1]
  rw [h1] at h2
  rw [h2]
  rfl

/-! ## Creating appointments -/

/-- C1, as stated, fails.  Appointment 1 is an active appointment of doctor 1 on
day 19783 at 09:00 and the request asks for the same doctor, day and time; yet
under no schema is the answer 409, and when the database accepts the insert the
answer is 200 and the store then holds two active appointments of doctor 1 in
that slot. -/
theorem createAppointment_books_taken_slot :
    (∃ a ∈ bookedDb.appointments, isActive a ∧ a.doctor_id = sameSlotRequest.doctor_id ∧
      a.appointment_date = sameSlotRequest.appointment_date ∧
      a.appointment_time = sameSlotRequest.appointment_time) ∧
    (∀ (S : Schema) (genId : Nat),
      (createAppointment S genId bookedDb sameSlotRequest).2.status ≠ 409) ∧
    (createAppointment openSchema 2 bookedDb sameSlotRequest).2.status = 200 ∧
    (createAppointment openSchema 2 bookedDb sameSlotRequest).2.success = true ∧
    (createAppointment openSchema 2 bookedDb sameSlotRequest).1.appointments =
      [apptNine,
       { id := 2, patient_id := 2, doctor_id := 1, appointment_date := 19783,
         appointment_time := 540, status := "Requested", notes := "" }] := by
  refine ⟨⟨apptNine, by simp [bookedDb], by decide, rfl, rfl, rfl⟩, ?_, rfl, rfl, rfl⟩
  intro S genId h
  rcases createAppointment_status S genId bookedDb sameSlotRequest with h1 | h1 <;>
    rw [h1] at h <;> cases h

/-- C1, amended.  When the store holds an active appointment of the doctor at
the requested date and time, creating an appointment never answers 409: if the
database accepts the insert the answer is 200 with `success: true` and the new
row, which is appended to the store with the requested doctor, date and time;
if the database refuses it the answer is 400 with `success: false` and the
store is unchanged. -/
theorem createAppointment_taken_slot (S : Schema) (genId : Nat) (db : Db) (req : CreateRequest)
    (_h : ∃ a ∈ db.appointments, isActive a ∧ a.doctor_id = req.doctor_id ∧
      a.appointment_date = req.appointment_date ∧ a.appointment_time = req.appointment_time) :
    (createAppointment S genId db req).2.status ≠ 409 ∧
    (S.rejectAppointment db (newAppointment S genId req) = none →
      (createAppointment S genId db req).2.status = 200 ∧
      (createAppointment S genId db req).2.success = true ∧
      (createAppointment S genId db req).2.appointment = some (newAppointment S genId req) ∧
      (createAppointment S genId db req).1.appointments =
        db.appointments ++ [newAppointment S genId req] ∧
      (newAppointment S genId req).doctor_id = req.doctor_id ∧
      (newAppointment S genId req).appointment_date = req.appointment_date ∧
      (newAppointment S genId req).appointment_time = req.appointment_time) ∧
    (∀ msg, S.rejectAppointment db (newAppointment S genId req) = some msg →
      (createAppointment S genId db req).2.status = 400 ∧
      (createAppointment S genId db req).2.success = false ∧
      (createAppointment S genId db req).1 = db) := by
  refine ⟨?_, ?_, ?_⟩
  · intro h
    rcases createAppointment_status S genId db req with h1 | h1 <;> rw [h1] at h <;> cases h
  · intro hacc
    rw [createAppointment_of_accepted S genId db req hacc]
    exact ⟨rfl, rfl, rfl, rfl, rfl, rfl, rfl⟩
  · intro msg hrej
    rw [createAppointment_of_rejected S genId db req msg hrej]
    exact ⟨rfl, rfl, rfl⟩

/-- Witness of `createAppointment_taken_slot` at `bookedDb` and
`sameSlotRequest`. -/
theorem createAppointment_taken_slot_witness :
    (createAppointment openSchema 2 bookedDb sameSlotRequest).2.status ≠ 409 ∧
    (createAppointment openSchema 2 bookedDb sameSlotRequest).2.status = 200 ∧
    (createAppointment openSchema 2 bookedDb sameSlotRequest).2.success = true ∧
    (createAppointment openSchema 2 bookedDb sameSlotRequest).1.appointments =
      bookedDb.appointments ++ [newAppointment openSchema 2 sameSlotRequest] :=
  have h := createAppointment_taken_slot openSchema 2 bookedDb sameSlotRequest
    ⟨apptNine, by simp [bookedDb], by decide, rfl, rfl, rfl⟩
  ⟨h.1, (h.2.1 rfl).1, (h.2.1 rfl).2.1, (h.2.1 rfl).2.2.2.1⟩

/-- C2, as stated, fails.  Ann holds the active appointment 1 with doctor 1 on
day 19783 and asks for the same doctor on the same day; under no schema is the
answer 409, and when the database accepts the insert the answer is 200 and the
store then holds two active appointments of Ann with doctor 1 on that day. -/
theorem createAppointment_books_same_day :
    (∃ a ∈ bookedDb.appointments, isActive a ∧ a.patient_id = sameDayRequest.patient_id ∧
      a.doctor_id = sameDayRequest.doctor_id ∧
      a.appointment_date = sameDayRequest.appointment_date) ∧
    (∀ (S : Schema) (genId : Nat),
      (createAppointment S genId bookedDb sameDayRequest).2.status ≠ 409) ∧
    (createAppointment openSchema 2 bookedDb sameDayRequest).2.status = 200 ∧
    (createAppointment openSchema 2 bookedDb sameDayRequest).2.success = true ∧
    (createAppointment openSchema 2 bookedDb sameDayRequest).1.appointments =
      [apptNine,
       { id := 2, patient_id := 1, doctor_id := 1, appointment_date := 19783,
         appointment_time := 570, status := "Requested", notes := "" }] := by
  refine ⟨⟨apptNine, by simp [bookedDb], by decide, rfl, rfl, rfl⟩, ?_, rfl, rfl, rfl⟩
  intro S genId h
  rcases createAppointment_status S genId bookedDb sameDayRequest with h1 | h1 <;>
    rw [h1] at h <;> cases h

/-- C2, amended.  When the patient holds an active appointment with the doctor
on the requested date, creating an appointment never answers 409: if the
database accepts the insert the answer is 200 with `success: true` and the new
row, which is appended to the store with the requested patient, doctor and
date; if the database refuses it the answer is 400 with `success: false` and
the store is unchanged. -/
theorem createAppointment_same_day (S : Schema) (genId : Nat) (db : Db) (req : CreateRequest)
    (_h : ∃ a ∈ db.appointments, isActive a ∧ a.patient_id = req.patient_id ∧
      a.doctor_id = req.doctor_id ∧ a.appointment_date = req.appointment_date) :
    (createAppointment S genId db req).2.status ≠ 409 ∧
    (S.rejectAppointment db (newAppointment S genId req) = none →
      (createAppointment S genId db req).2.status = 200 ∧
      (createAppointment S genId db req).2.success = true ∧
      (createAppointment S genId db req).2.appointment = some (newAppointment S genId req) ∧
      (createAppointment S genId db req).1.appointments =
        db.appointments ++ [newAppointment S genId req] ∧
      (newAppointment S genId req).patient_id = req.patient_id ∧
      (newAppointment S genId req).doctor_id = req.doctor_id ∧
      (newAppointment S genId req).appointment_date = req.appointment_date) ∧
    (∀ msg, S.rejectAppointment db (newAppointment S genId req) = some msg →
      (createAppointment S genId db req).2.status = 400 ∧
      (createAppointment S genId db req).2.success = false ∧
      (createAppointment S genId db req).1 = db) := by
  refine ⟨?_, ?_, ?_⟩
  · intro h
    rcases createAppointment_status S genId db req with h1 | h1 <;> rw [h1] at h <;> cases h
  · intro hacc
    rw [createAppointment_of_accepted S genId db req hacc]
    exact ⟨rfl, rfl, rfl, rfl, rfl, rfl, rfl⟩
  · intro msg hrej
    rw [createAppointment_of_rejected S genId db req msg hrej]
    exact ⟨rfl, rfl, rfl⟩

/-- Witness of `createAppointment_same_day` at `bookedDb` and
`sameDayRequest`. -/
theorem createAppointment_same_day_witness :
    (createAppointment openSchema 2 bookedDb sameDayRequest).2.status ≠ 409 ∧
    (createAppointment openSchema 2 bookedDb sameDayRequest).2.status = 200 ∧
    (createAppointment openSchema 2 bookedDb sameDayRequest).2.success = true ∧
    (createAppointment openSchema 2 bookedDb sameDayRequest).1.appointments =
      bookedDb.appointments ++ [newAppointment openSchema 2 sameDayRequest] :=
  have h := createAppointment_same_day openSchema 2 bookedDb sameDayRequest
    ⟨apptNine, by simp [bookedDb], by decide, rfl, rfl, rfl⟩
  ⟨h.1, (h.2.1 rfl).1, (h.2.1 rfl).2.1, (h.2.1 rfl).2.2.2.1⟩

/-- C6, as stated, fails.  The request names patient 7 and doctor 9, neither of
which is stored; under no schema is the answer 404, and when the database
accepts the insert the answer is 200 and the appointment is added. -/
theorem createAppointment_for_strangers :
    ((∀ p ∈ bookedDb.patients, p.id ≠ strangerRequest.patient_id) ∧
      (∀ d ∈ bookedDb.doctors, d.id ≠ strangerRequest.doctor_id)) ∧
    (∀ (S : Schema) (genId : Nat),
      (createAppointment S genId bookedDb strangerRequest).2.status ≠ 404) ∧
    (createAppointment openSchema 2 bookedDb strangerRequest).2.status = 200 ∧
    (createAppointment openSchema 2 bookedDb strangerRequest).2.success = true ∧
    (createAppointment openSchema 2 bookedDb strangerRequest).1.appointments =
      [apptNine,
       { id := 2, patient_id := 7, doctor_id := 9, appointment_date := 19783,
         appointment_time := 660, status := "Requested", notes := "" }] := by
  refine ⟨⟨by decide, by decide⟩, ?_, rfl, rfl, rfl⟩
  intro S genId h
  rcases createAppointment_status S genId bookedDb strangerRequest with h1 | h1 <;>
    rw [h1] at h <;> cases h

/-- C6, amended.  When the request's `patient_id` or `doctor_id` matches no
stored patient or doctor, creating an appointment never answers 404: if the
database refuses the insert the answer is 400 and no appointment is added; if
the database accepts it the answer is 200 and the row, carrying the requested
ids, is appended to the store. -/
theorem createAppointment_unresolved (S : Schema) (genId : Nat) (db : Db) (req : CreateRequest)
    (_h : (∀ p ∈ db.patients, p.id ≠ req.patient_id) ∨
      (∀ d ∈ db.doctors, d.id ≠ req.doctor_id)) :
    (createAppointment S genId db req).2.status ≠ 404 ∧
    (∀ msg, S.rejectAppointment db (newAppointment S genId req) = some msg →
      (createAppointment S genId db req).2.status = 400 ∧
      (createAppointment S genId db req).2.success = false ∧
      (createAppointment S genId db req).1.appointments = db.appointments) ∧
    (S.rejectAppointment db (newAppointment S genId req) = none →
      (createAppointment S genId db req).2.status = 200 ∧
      (createAppointment S genId db req).2.success = true ∧
      (createAppointment S genId db req).1.appointments =
        db.appointments ++ [newAppointment S genId req] ∧
      (newAppointment S genId req).patient_id = req.patient_id ∧
      (newAppointment S genId req).doctor_id = req.doctor_id) := by
  refine ⟨?_, ?_, ?_⟩
  · intro h
    rcases createAppointment_status S genId db req with h1 | h1 <;> rw [h1] at h <;> cases h
  · intro msg hrej
    rw [createAppointment_of_rejected S genId db req msg hrej]
    exact ⟨rfl, rfl, rfl⟩
  · intro hacc
    rw [createAppointment_of_accepted S genId db req hacc]
    exact ⟨rfl, rfl, rfl, rfl, rfl⟩

/-- Witness of `createAppointment_unresolved` at `bookedDb` and
`strangerRequest`. -/
theorem createAppointment_unresolved_witness :
    (createAppointment openSchema 2 bookedDb strangerRequest).2.status ≠ 404 ∧
    (createAppointment openSchema 2 bookedDb strangerRequest).1.appointments =
      bookedDb.appointments ++ [newAppointment openSchema 2 strangerRequest] :=
  have h := createAppointment_unresolved openSchema 2 bookedDb strangerRequest
    (Or.inl (by decide))
  ⟨h.1, (h.2.2 rfl).2.2.1⟩


/-! ## Updating the status -/

/-- C3, as stated, fails.  Appointment 1 is stored `Cancelled`; neither
`Cancelled -> Cancelled` nor `Cancelled -> Confirmed` is a legal transition, yet
under no schema is either request answered 409, and when the database accepts
the update both are answered 200 with `success: true`, the second one leaving
the stored record `Confirmed`. -/
theorem updateAppointmentStatus_leaves_terminal_state :
    (∃ a ∈ cancelledDb.appointments, a.id = 1 ∧ a.status = "Cancelled") ∧
    ¬ legalTransition "Cancelled" "Cancelled" ∧ ¬ legalTransition "Cancelled" "Confirmed" ∧
    (∀ (S : Schema) (requested : String),
      (updateAppointmentStatus S cancelledDb 1 requested).2.status ≠ 409) ∧
    (updateAppointmentStatus openSchema cancelledDb 1 "Cancelled").2 =
      { status := 200, success := true,
        appointment := some { apptNine with status := "Cancelled" }, error := none } ∧
    (updateAppointmentStatus openSchema cancelledDb 1 "Confirmed").2 =
      { status := 200, success := true,
        appointment := some { apptNine with status := "Confirmed" }, error := none } ∧
    (updateAppointmentStatus openSchema cancelledDb 1 "Confirmed").1.appointments =
      [{ apptNine with status := "Confirmed" }] := by
  refine ⟨⟨_, List.mem_singleton.mpr rfl, rfl, rfl⟩, by decide, by decide, ?_, ?_, ?_, ?_⟩
  · intro S requested h
    rcases updateAppointmentStatus_status S cancelledDb 1 requested with h1 | h1 <;>
      rw [h1] at h <;> cases h
  · simp [updateAppointmentStatus, openSchema, cancelledDb, setStatus, apptNine]
  · simp [updateAppointmentStatus, openSchema, cancelledDb, setStatus, apptNine]
  · simp [updateAppointmentStatus, openSchema, cancelledDb, setStatus, apptNine]

/-- C3, amended.  For a stored appointment and a requested status that is not a
legal transition from its current one, the status update never answers 409: if
the database accepts the update the answer is 200 with `success: true` and a
row of that id carrying the requested status, and the stored record now has the
requested status, its other fields unchanged; if the database refuses it the
answer is 400 and the store is unchanged. -/
theorem updateAppointmentStatus_illegal (S : Schema) (db : Db) (id : Nat) (requested : String)
    (a : Appointment) (ha : a ∈ db.appointments) (hid : a.id = id)
    (_hill : ¬ legalTransition a.status requested) :
    (updateAppointmentStatus S db id requested).2.status ≠ 409 ∧
    (S.rejectStatusUpdate db id requested = none →
      (updateAppointmentStatus S db id requested).2.status = 200 ∧
      (updateAppointmentStatus S db id requested).2.success = true ∧
      (∃ b, (updateAppointmentStatus S db id requested).2.appointment = some b ∧
        b.id = id ∧ b.status = requested) ∧
      { a with status := requested } ∈ (updateAppointmentStatus S db id requested).1.appointments) ∧
    (∀ msg, S.rejectStatusUpdate db id requested = some msg →
      (updateAppointmentStatus S db id requested).2.status = 400 ∧
      (updateAppointmentStatus S db id requested).1 = db) := by
  refine ⟨?_, ?_, ?_⟩
  · intro h
    rcases updateAppointmentStatus_status S db id requested with h1 | h1 <;>
      rw [h1] at h <;> cases h
  · intro hacc
    rw [updateAppointmentStatus_of_accepted S db id requested hacc]
    refine ⟨rfl, rfl, returned_head_of_mem db.appointments id requested ⟨a, ha, hid⟩, ?_⟩
    show _ ∈ setStatus db.appointments id requested
    unfold setStatus
    exact List.mem_map.mpr ⟨a, ha, by simp [hid]⟩
  · intro msg hrej
    rw [updateAppointmentStatus_of_rejected S db id requested msg hrej]
    exact ⟨rfl, rfl⟩

/-- Witness of `updateAppointmentStatus_illegal`: confirming the `Cancelled`
appointment 1. -/
theorem updateAppointmentStatus_illegal_witness :
    (updateAppointmentStatus openSchema cancelledDb 1 "Confirmed").2.status ≠ 409 ∧
    { apptNine with status := "Confirmed" } ∈
      (updateAppointmentStatus openSchema cancelledDb 1 "Confirmed").1.appointments :=
  have h := updateAppointmentStatus_illegal openSchema cancelledDb 1 "Confirmed"
    { apptNine with status := "Cancelled" } (List.mem_singleton.mpr rfl) rfl (by decide)
  ⟨h.1, (h.2.1 rfl).2.2.2⟩

/-- C4 at a failing input.  No stored appointment has id 99; under no schema is
the status update of id 99 answered 404, and when the database accepts the
statement the answer is 200 with `success: true` and no appointment, the store
being unchanged. -/
theorem updateAppointmentStatus_unknown_id :
    (∀ a ∈ bookedDb.appointments, a.id ≠ 99) ∧
    (∀ (S : Schema) (requested : String),
      (updateAppointmentStatus S bookedDb 99 requested).2.status ≠ 404) ∧
    (updateAppointmentStatus openSchema bookedDb 99 "Confirmed").2 =
      { status := 200, success := true, appointment := none, error := none } ∧
    (updateAppointmentStatus openSchema bookedDb 99 "Confirmed").1 = bookedDb := by
  refine ⟨by decide, ?_, ?_, ?_⟩
  · intro S requested h
    rcases updateAppointmentStatus_status S bookedDb 99 requested with h1 | h1 <;>
      rw [h1] at h <;> cases h
  · simp [updateAppointmentStatus, openSchema, bookedDb, setStatus, apptNine]
  · simp [updateAppointmentStatus, openSchema, bookedDb, setStatus, apptNine]

/-- C7.  A status update leaves the patients, doctors and admins as they were,
keeps the appointments in place one for one, changes no field of any
appointment other than `status` (so `id`, `patient_id`, `doctor_id`, date, time
and notes are as before), and leaves every appointment with another id entirely
unchanged. -/
theorem updateAppointmentStatus_frame (S : Schema) (db : Db) (id : Nat) (status : String) :
    (updateAppointmentStatus S db id status).1.patients = db.patients ∧
    (updateAppointmentStatus S db id status).1.doctors = db.doctors ∧
    (updateAppointmentStatus S db id status).1.admins = db.admins ∧
    List.Forall₂
      (fun a a' =>
        a'.id = a.id ∧ a'.patient_id = a.patient_id ∧ a'.doctor_id = a.doctor_id ∧
        a'.appointment_date = a.appointment_date ∧
        a'.appointment_time = a.appointment_time ∧ a'.notes = a.notes ∧
        (a.id ≠ id → a' = a))
      db.appointments (updateAppointmentStatus S db id status).1.appointments := by
  have key : ∀ rows rows' : List Appointment, List.Forall₂ (statusOnly id) rows rows' →
      List.Forall₂
        (fun a a' =>
          a'.id = a.id ∧ a'.patient_id = a.patient_id ∧ a'.doctor_id = a.doctor_id ∧
          a'.appointment_date = a.appointment_date ∧
          a'.appointment_time = a.appointment_time ∧ a'.notes = a.notes ∧
          (a.id ≠ id → a' = a)) rows rows' := by
    intro rows rows' h
    refine List.Forall₂.imp ?_ h
    intro a a' hs
    obtain ⟨h1, h2⟩ := hs
    refine ⟨?_, ?_, ?_, ?_, ?_, ?_, h2⟩ <;> rw [h1]
  cases h : S.rejectStatusUpdate db id status with
  | none =>
    rw [updateAppointmentStatus_of_accepted S db id status h]
    exact ⟨rfl, rfl, rfl, key _ _ (setStatus_forall₂ db.appointments id status)⟩
  | some msg =>
    rw [updateAppointmentStatus_of_rejected S db id status msg h]
    exact ⟨rfl, rfl, rfl, key _ _ (statusOnly_refl_forall₂ db.appointments id)⟩


/-! ## No deletion -/

theorem withoutStatus_setStatus (rows : List Appointment) (id : Nat) (status : String) :
    (setStatus rows id status).map withoutStatus = rows.map withoutStatus := by
  unfold setStatus
  rw [List.map_map]
  apply List.map_congr_left
  intro a _
  by_cases h : a.id = id <;> simp [withoutStatus, h]

/-- One request keeps every stored appointment in place, apart from its
status. -/
theorem step_keeps (S : Schema) (B : Bcrypt) (db : Db) (op : Op) :
    db.appointments.map withoutStatus <+: (step S B db op).appointments.map withoutStatus := by
  cases op with
  | registerPatient genId now salt req =>
    show _ <+: (registerPatient S B genId now salt db req).1.appointments.map withoutStatus
    unfold registerPatient
    split
    · exact List.prefix_refl _
    · dsimp only
      split <;> exact List.prefix_refl _
  | registerDoctor genId now salt req =>
    show _ <+: (registerDoctor S B genId now salt db req).1.appointments.map withoutStatus
    unfold registerDoctor
    split
    · exact List.prefix_refl _
    · dsimp only
      split <;> exact List.prefix_refl _
  | registerAdmin genId salt req =>
    show _ <+: (registerAdmin S B genId salt db req).1.appointments.map withoutStatus
    unfold registerAdmin
    split
    · exact List.prefix_refl _
    · dsimp only
      split <;> exact List.prefix_refl _
  | createAppointment genId req =>
    show _ <+: (createAppointment S genId db req).1.appointments.map withoutStatus
    cases h : S.rejectAppointment db (newAppointment S genId req) with
    | none =>
      rw [createAppointment_of_accepted S genId db req h]
      show _ <+: (db.appointments ++ [newAppointment S genId req]).map withoutStatus
      rw [List.map_append]
      exact List.prefix_append _ _
    | some msg =>
      rw [createAppointment_of_rejected S genId db req msg h]
  | updateAppointmentStatus id status =>
    show _ <+: (updateAppointmentStatus S db id status).1.appointments.map withoutStatus
    cases h : S.rejectStatusUpdate db id status with
    | none =>
      rw [updateAppointmentStatus_of_accepted S db id status h]
      show _ <+: (setStatus db.appointments id status).map withoutStatus
      rw [withoutStatus_setStatus]
    | some msg =>
      rw [updateAppointmentStatus_of_rejected S db id status msg h]
  | listPatients => exact List.prefix_refl _
  | loginPatient _ _ => exact List.prefix_refl _
  | listDoctors => exact List.prefix_refl _
  | loginDoctor _ _ => exact List.prefix_refl _
  | loginAdmin _ _ => exact List.prefix_refl _
  | listAppointments => exact List.prefix_refl _
  | listByPatient _ => exact List.prefix_refl _
  | listByDoctor _ => exact List.prefix_refl _

theorem run_keeps (S : Schema) (B : Bcrypt) (ops : List Op) :
    ∀ db : Db,
      db.appointments.map withoutStatus <+: (run S B db ops).appointments.map withoutStatus := by
  induction ops with
  | nil => intro db; exact List.prefix_refl _
  | cons op ops ih =>
    intro db
    show _ <+: (run S B (step S B db op) ops).appointments.map withoutStatus
    exact (step_keeps S B db op).trans (ih (step S B db op))

/-- C8.  Along every sequence of requests to the API, starting from any store:
the stored appointments stay in place with every field but `status` as it was,
new ones being added after them, so the list of stored ids only grows at its
end; every appointment present before is present afterwards under the same id;
and a status update to `Cancelled` changes at most the `status` of rows, and
only of rows with the requested id. -/
theorem appointments_never_deleted (S : Schema) (B : Bcrypt) (db : Db) (ops : List Op) :
    (db.appointments.map withoutStatus <+: (run S B db ops).appointments.map withoutStatus) ∧
    (db.appointments.map (fun a => a.id) <+:
      (run S B db ops).appointments.map (fun a => a.id)) ∧
    (∀ a ∈ db.appointments, ∃ a' ∈ (run S B db ops).appointments,
      a'.id = a.id ∧ a' = { a with status := a'.status }) ∧
    (∀ id, List.Forall₂ (statusOnly id) db.appointments
      (updateAppointmentStatus S db id "Cancelled").1.appointments) := by
  have hp := run_keeps S B ops db
  refine ⟨hp, ?_, ?_, ?_⟩
  · have h2 := hp.map (fun a : Appointment => a.id)
    simpa [List.map_map, Function.comp_def, withoutStatus] using h2
  · intro a ha
    have h1 : withoutStatus a ∈ (run S B db ops).appointments.map withoutStatus :=
      hp.subset (List.mem_map_of_mem _ ha)
    obtain ⟨a', ha', he⟩ := List.mem_map.mp h1
    refine ⟨a', ha', ?_, ?_⟩
    · have := congrArg Appointment.id he
      simpa [withoutStatus] using this
    · cases a; cases a'
      simp only [withoutStatus, Appointment.mk.injEq] at he ⊢
      tauto
  · intro id
    cases h : S.rejectStatusUpdate db id "Cancelled" with
    | none =>
      rw [updateAppointmentStatus_of_accepted S db id "Cancelled" h]
      exact setStatus_forall₂ db.appointments id "Cancelled"
    | some msg =>
      rw [updateAppointmentStatus_of_rejected S db id "Cancelled" msg h]
      exact statusOnly_refl_forall₂ db.appointments id



/-! ## Listing order -/

theorem perm_pair {α : Type} {x y : α} {out : List α} (h : out.Perm [x, y]) :
    out = [x, y] ∨ out = [y, x] := by
  have hl := h.length_eq
  match out, h, hl with
  | [u, v], h, _ =>
    have hu : u ∈ [x, y] := h.subset (List.mem_cons_self _ _)
    rcases List.mem_cons.mp hu with rfl | hu
    · left
      have h2 := (List.perm_cons u).mp h
      rw [List.perm_singleton.mp h2]
    · have hu2 : u = y := List.mem_singleton.mp hu
      subst hu2
      right
      have h2 := (List.perm_cons u).mp (h.trans (List.Perm.swap u x []))
      rw [List.perm_singleton.mp h2]

/-- The rows the by-doctor query selects: one for each pair of an appointment
of the doctor and a stored patient with the appointment's `patient_id`. -/
theorem mem_appointmentsOfDoctor (db : Db) (id : Nat) (r : DoctorAppointment) :
    r ∈ appointmentsOfDoctor db id ↔
      ∃ a ∈ db.appointments, a.doctor_id = id ∧ ∃ p ∈ db.patients, a.patient_id = p.id ∧
        r = { appointment := a, patient_name := p.name, patient_phone := p.phone } := by
  unfold appointmentsOfDoctor
  simp only [List.mem_filter, List.mem_flatMap, List.mem_map, decide_eq_true_eq]
  constructor
  · rintro ⟨⟨a, ha, p, ⟨hp, hap⟩, rfl⟩, hid⟩
    exact ⟨a, ha, hid, p, hp, hap, rfl⟩
  · rintro ⟨a, ha, hid, p, hp, hap, rfl⟩
    exact ⟨⟨a, ha, p, ⟨hp, hap⟩, rfl⟩, hid⟩

/-- The rows the by-patient query selects: one for each pair of an appointment
of the patient and a stored doctor with the appointment's `doctor_id`. -/
theorem mem_appointmentsOfPatient (db : Db) (id : Nat) (r : PatientAppointment) :
    r ∈ appointmentsOfPatient db id ↔
      ∃ a ∈ db.appointments, a.patient_id = id ∧ ∃ d ∈ db.doctors, a.doctor_id = d.id ∧
        r = { appointment := a, doctor_name := d.name, specialization := d.specialization } := by
  unfold appointmentsOfPatient
  simp only [List.mem_filter, List.mem_flatMap, List.mem_map, decide_eq_true_eq]
  constructor
  · rintro ⟨⟨a, ha, d, ⟨hd, had⟩, rfl⟩, hid⟩
    exact ⟨a, ha, hid, d, hd, had, rfl⟩
  · rintro ⟨a, ha, hid, d, hd, had, rfl⟩
    exact ⟨⟨a, ha, d, ⟨hd, had⟩, rfl⟩, hid⟩

/-- What every answer of the by-doctor listing satisfies: it holds the
selected rows, each as often as selected, in descending order of date. -/
theorem listByDoctor_rows (S : Schema) (db : Db) (id : Nat) (out : List DoctorAppointment)
    (h : listByDoctor S db id (.rows out)) :
    out.Perm (appointmentsOfDoctor db id) ∧
    List.Sorted (fun x y : DoctorAppointment =>
      y.appointment.appointment_date ≤ x.appointment.appointment_date) out :=
  h.2

/-- What every answer of the by-patient listing satisfies: it holds the
selected rows, each as often as selected, in descending order of date. -/
theorem listByPatient_rows (S : Schema) (db : Db) (id : Nat) (out : List PatientAppointment)
    (h : listByPatient S db id (.rows out)) :
    out.Perm (appointmentsOfPatient db id) ∧
    List.Sorted (fun x y : PatientAppointment =>
      y.appointment.appointment_date ≤ x.appointment.appointment_date) out :=
  h.2

/-- C5 at a failing input.  In the store `lateFirstDb` patient 1 has two
appointments with doctor 1 on the same day, at 10:00 and at 09:00, and both
the patient and the doctor are stored.  Whenever the query is carried out, the
by-doctor and the by-patient listing may each answer with the 09:00
appointment first, an answer that is not in descending `(date, time)` order;
they may as well answer with the 10:00 appointment first, and these two are
all their answers, so each holds exactly the two appointments and only the
order is left open.  The same holds in `sameDayDb`, where the 09:00
appointment was made first.  `GET /api/appointments` on the same store can
only answer with the 10:00 appointment first. -/
theorem listing_ignores_time :
    (∀ S : Schema, S.rejectSelect (Select.appointmentsOfDoctor 1) = none →
      listByDoctor S lateFirstDb 1 (.rows
        [{ appointment := earlySecond, patient_name := "Ann", patient_phone := "100" },
         { appointment := lateFirst, patient_name := "Ann", patient_phone := "100" }]) ∧
      listByDoctor S lateFirstDb 1 (.rows
        [{ appointment := lateFirst, patient_name := "Ann", patient_phone := "100" },
         { appointment := earlySecond, patient_name := "Ann", patient_phone := "100" }]) ∧
      (∀ out, listByDoctor S lateFirstDb 1 (.rows out) →
        out = [{ appointment := earlySecond, patient_name := "Ann", patient_phone := "100" },
               { appointment := lateFirst, patient_name := "Ann", patient_phone := "100" }] ∨
        out = [{ appointment := lateFirst, patient_name := "Ann", patient_phone := "100" },
               { appointment := earlySecond, patient_name := "Ann", patient_phone := "100" }]) ∧
      listByDoctor S sameDayDb 1 (.rows
        [{ appointment := apptNine, patient_name := "Ann", patient_phone := "100" },
         { appointment := apptTen, patient_name := "Ann", patient_phone := "100" }])) ∧
    (∀ S : Schema, S.rejectSelect (Select.appointmentsOfPatient 1) = none →
      listByPatient S lateFirstDb 1 (.rows
        [{ appointment := earlySecond, doctor_name := "Dee", specialization := "General" },
         { appointment := lateFirst, doctor_name := "Dee", specialization := "General" }]) ∧
      listByPatient S lateFirstDb 1 (.rows
        [{ appointment := lateFirst, doctor_name := "Dee", specialization := "General" },
         { appointment := earlySecond, doctor_name := "Dee", specialization := "General" }]) ∧
      (∀ out, listByPatient S lateFirstDb 1 (.rows out) →
        out = [{ appointment := earlySecond, doctor_name := "Dee", specialization := "General" },
               { appointment := lateFirst, doctor_name := "Dee", specialization := "General" }] ∨
        out = [{ appointment := lateFirst, doctor_name := "Dee", specialization := "General" },
               { appointment := earlySecond, doctor_name := "Dee", specialization := "General" }]) ∧
      listByPatient S sameDayDb 1 (.rows
        [{ appointment := apptNine, doctor_name := "Dee", specialization := "General" },
         { appointment := apptTen, doctor_name := "Dee", specialization := "General" }])) ∧
    ¬ List.Sorted (fun x y : DoctorAppointment =>
        dateTimeDesc x.appointment.appointment_date x.appointment.appointment_time
          y.appointment.appointment_date y.appointment.appointment_time)
      [{ appointment := earlySecond, patient_name := "Ann", patient_phone := "100" },
       { appointment := lateFirst, patient_name := "Ann", patient_phone := "100" }] ∧
    ¬ List.Sorted (fun x y : PatientAppointment =>
        dateTimeDesc x.appointment.appointment_date x.appointment.appointment_time
          y.appointment.appointment_date y.appointment.appointment_time)
      [{ appointment := earlySecond, doctor_name := "Dee", specialization := "General" },
       { appointment := lateFirst, doctor_name := "Dee", specialization := "General" }] ∧
    (∀ (S : Schema) (out : List AppointmentListing),
      listAppointments S lateFirstDb (.rows out) →
        out.map (fun r => (r.id, r.appointment_time)) = [(1, 600), (2, 540)]) := by
  have hd : appointmentsOfDoctor lateFirstDb 1 =
      [{ appointment := lateFirst, patient_name := "Ann", patient_phone := "100" },
       { appointment := earlySecond, patient_name := "Ann", patient_phone := "100" }] := by
    decide
  have hp : appointmentsOfPatient lateFirstDb 1 =
      [{ appointment := lateFirst, doctor_name := "Dee", specialization := "General" },
       { appointment := earlySecond, doctor_name := "Dee", specialization := "General" }] := by
    decide
  refine ⟨?_, ?_, by decide, by decide, ?_⟩
  · intro S hS
    refine ⟨⟨hS, by decide⟩, ⟨hS, by decide⟩, ?_, ⟨hS, by decide⟩⟩
    intro out hout
    have hperm := hout.2.1
    rw [hd] at hperm
    exact (perm_pair hperm).symm
  · intro S hS
    refine ⟨⟨hS, by decide⟩, ⟨hS, by decide⟩, ?_, ⟨hS, by decide⟩⟩
    intro out hout
    have hperm := hout.2.1
    rw [hp] at hperm
    exact (perm_pair hperm).symm
  · intro S out hout
    have hperm := hout.2.1
    have hsorted := hout.2.2
    have hj : joinedAppointments lateFirstDb =
        [⟨1, 19783, 600, "Requested", "", "Ann", "100", "Dee", "General"⟩,
         ⟨2, 19783, 540, "Requested", "", "Ann", "100", "Dee", "General"⟩] := by
      decide
    rw [hj] at hperm
    rcases perm_pair hperm with h | h
    · rw [h]; rfl
    · rw [h] at hsorted
      exact absurd hsorted (by decide)


/-! ## Login -/

theorem filter_eq_find? {α : Type} (p : α → Bool) (l : List α) :
    (l.filter p).head? = l.find? p := by
  induction l with
  | nil => rfl
  | cons x xs ih =>
    cases h : p x <;> simp [List.filter, List.find?, h, ih]

theorem find?_eq_none_iff_ne {α : Type} (key : α → String) (email : String) (l : List α) :
    (l.find? fun x => key x = email) = none ↔ ∀ x ∈ l, key x ≠ email := by
  simp [List.find?_eq_none]

/-- The patient login as a function of the first row with the email. -/
theorem loginPatient_eq (S : Schema) (B : Bcrypt) (db : Db) (email : String)
    (password : Option String) :
    loginPatient S B db email password =
      match S.rejectSelect (Select.patientByEmail email) with
      | some msg => caughtResponse 500 msg
      | none =>
        match db.patients.find? fun x => x.email = email with
        | none => notFoundResponse "Patient not found"
        | some p =>
          match B.compare password p.password with
          | .error msg => caughtResponse 500 msg
          | .ok true =>
            accountResponse "patient"
              [("id", Val.num p.id), ("name", Val.str p.name),
               ("email", Val.str p.email)]
          | .ok false => invalidPasswordResponse := by
  have h := filter_eq_find? (fun x : Patient => decide (x.email = email)) db.patients
  unfold loginPatient
  cases hq : S.rejectSelect (Select.patientByEmail email) with
  | some msg => rfl
  | none =>
    dsimp only
    cases hf : db.patients.filter (fun x => decide (x.email = email)) with
    | nil =>
      rw [hf] at h
      simp only [List.head?_nil] at h
      simp [← h]
    | cons x xs =>
      rw [hf] at h
      simp only [List.head?_cons] at h
      rw [← h]
      dsimp only
      cases hc : B.compare password x.password with
      | error msg => rfl
      | ok b => cases b <;> rfl

/-- The doctor login as a function of the first row with the email. -/
theorem loginDoctor_eq (S : Schema) (B : Bcrypt) (db : Db) (email : String)
    (password : Option String) :
    loginDoctor S B db email password =
      match S.rejectSelect (Select.doctorByEmail email) with
      | some msg => caughtResponse 500 msg
      | none =>
        match db.doctors.find? fun x => x.email = email with
        | none => notFoundResponse "Doctor not found"
        | some d =>
          match B.compare password d.password with
          | .error msg => caughtResponse 500 msg
          | .ok true =>
            accountResponse "doctor"
              [("id", Val.num d.id), ("name", Val.str d.name),
               ("email", Val.str d.email),
               ("specialization", Val.str d.specialization)]
          | .ok false => invalidPasswordResponse := by
  have h := filter_eq_find? (fun x : Doctor => decide (x.email = email)) db.doctors
  unfold loginDoctor
  cases hq : S.rejectSelect (Select.doctorByEmail email) with
  | some msg => rfl
  | none =>
    dsimp only
    cases hf : db.doctors.filter (fun x => decide (x.email = email)) with
    | nil =>
      rw [hf] at h
      simp only [List.head?_nil] at h
      simp [← h]
    | cons x xs =>
      rw [hf] at h
      simp only [List.head?_cons] at h
      rw [← h]
      dsimp only
      cases hc : B.compare password x.password with
      | error msg => rfl
      | ok b => cases b <;> rfl

/-- The admin login as a function of the first row with the email. -/
theorem loginAdmin_eq (S : Schema) (B : Bcrypt) (db : Db) (email : String)
    (password : Option String) :
    loginAdmin S B db email password =
      match S.rejectSelect (Select.adminByEmail email) with
      | some msg => caughtResponse 500 msg
      | none =>
        match db.admins.find? fun x => x.email = email with
        | none => notFoundResponse "Admin not found"
        | some a =>
          match B.compare password a.password with
          | .error msg => caughtResponse 500 msg
          | .ok true =>
            accountResponse "admin"
              [("id", Val.num a.id), ("name", Val.str a.name),
               ("email", Val.str a.email)]
          | .ok false => invalidPasswordResponse := by
  have h := filter_eq_find? (fun x : Admin => decide (x.email = email)) db.admins
  unfold loginAdmin
  cases hq : S.rejectSelect (Select.adminByEmail email) with
  | some msg => rfl
  | none =>
    dsimp only
    cases hf : db.admins.filter (fun x => decide (x.email = email)) with
    | nil =>
      rw [hf] at h
      simp only [List.head?_nil] at h
      simp [← h]
    | cons x xs =>
      rw [hf] at h
      simp only [List.head?_cons] at h
      rw [← h]
      dsimp only
      cases hc : B.compare password x.password with
      | error msg => rfl
      | ok b => cases b <;> rfl

/-- C9, as stated, fails.  Ann's row has the email `ann@x.org`; a login with
that email and no password makes `bcrypt.compare` throw and is answered 500,
which is none of 404, 401 and success.  With a password present, no row has
the email made of a NUL character, yet the query raises an error for it and
the login is answered 500 instead of 404. -/
theorem login_answers_500 :
    (∃ p ∈ bookedDb.patients, p.email = "ann@x.org") ∧
    loginPatient openSchema toyBcrypt bookedDb "ann@x.org" none =
      caughtResponse 500 "data and hash arguments required" ∧
    (loginPatient openSchema toyBcrypt bookedDb "ann@x.org" none).status = 500 ∧
    (∀ p ∈ bookedDb.patients, p.email ≠ "\x00") ∧
    (loginPatient nulCheckingSchema toyBcrypt bookedDb "\x00" (some "pw")).status = 500 ∧
    (loginDoctor openSchema toyBcrypt bookedDb "dee@x.org" none).status = 500 ∧
    (loginAdmin nulCheckingSchema toyBcrypt bookedDb "\x00" (some "pw")).status = 500 := by
  refine ⟨⟨ann, by simp [bookedDb], rfl⟩, by decide, by decide, by decide, by decide,
    by decide, by decide⟩

/-- C9, amended.  For each of the patient, doctor and admin logins, over its
own table: when the lookup query raises no error and `bcrypt.compare` does not
throw on the first row with the email, the answer is 404 exactly when no row
has the email, and then it is the "not found" body of the route; it is 401
exactly when `bcrypt.compare` is false on the first row with the email, and
then it is the "Invalid password" body; in every other case it is the success
answer with the id, name and email (for a doctor also the specialization) of
that first row.  The answer is 500 exactly when the query raises an error or
`bcrypt.compare` throws on the first row with the email. -/
theorem login_classification (S : Schema) (B : Bcrypt) (db : Db) (email : String)
    (password : Option String) :
    ((S.rejectSelect (Select.patientByEmail email) = none →
      (∀ p, (db.patients.find? fun x => x.email = email) = some p →
        ∃ b, B.compare password p.password = .ok b) →
      ((loginPatient S B db email password).status = 404 ↔ ∀ p ∈ db.patients, p.email ≠ email) ∧
      ((loginPatient S B db email password).status = 401 ↔
        ∃ p, (db.patients.find? fun x => x.email = email) = some p ∧
          B.compare password p.password = .ok false) ∧
      ((loginPatient S B db email password).status = 404 →
        loginPatient S B db email password = notFoundResponse "Patient not found") ∧
      ((loginPatient S B db email password).status = 401 →
        loginPatient S B db email password = invalidPasswordResponse) ∧
      ((loginPatient S B db email password).status ≠ 404 →
       (loginPatient S B db email password).status ≠ 401 →
        ∃ p, (db.patients.find? fun x => x.email = email) = some p ∧
          loginPatient S B db email password =
            accountResponse "patient"
              [("id", Val.num p.id), ("name", Val.str p.name),
               ("email", Val.str p.email)])) ∧
     ((loginPatient S B db email password).status = 500 ↔
       (∃ msg, S.rejectSelect (Select.patientByEmail email) = some msg) ∨
       (S.rejectSelect (Select.patientByEmail email) = none ∧
        ∃ p msg, (db.patients.find? fun x => x.email = email) = some p ∧
          B.compare password p.password = .error msg))) ∧
    ((S.rejectSelect (Select.doctorByEmail email) = none →
      (∀ d, (db.doctors.find? fun x => x.email = email) = some d →
        ∃ b, B.compare password d.password = .ok b) →
      ((loginDoctor S B db email password).status = 404 ↔ ∀ d ∈ db.doctors, d.email ≠ email) ∧
      ((loginDoctor S B db email password).status = 401 ↔
        ∃ d, (db.doctors.find? fun x => x.email = email) = some d ∧
          B.compare password d.password = .ok false) ∧
      ((loginDoctor S B db email password).status = 404 →
        loginDoctor S B db email password = notFoundResponse "Doctor not found") ∧
      ((loginDoctor S B db email password).status = 401 →
        loginDoctor S B db email password = invalidPasswordResponse) ∧
      ((loginDoctor S B db email password).status ≠ 404 →
       (loginDoctor S B db email password).status ≠ 401 →
        ∃ d, (db.doctors.find? fun x => x.email = email) = some d ∧
          loginDoctor S B db email password =
            accountResponse "doctor"
              [("id", Val.num d.id), ("name", Val.str d.name),
               ("email", Val.str d.email),
               ("specialization", Val.str d.specialization)])) ∧
     ((loginDoctor S B db email password).status = 500 ↔
       (∃ msg, S.rejectSelect (Select.doctorByEmail email) = some msg) ∨
       (S.rejectSelect (Select.doctorByEmail email) = none ∧
        ∃ d msg, (db.doctors.find? fun x => x.email = email) = some d ∧
          B.compare password d.password = .error msg))) ∧
    ((S.rejectSelect (Select.adminByEmail email) = none →
      (∀ a, (db.admins.find? fun x => x.email = email) = some a →
        ∃ b, B.compare password a.password = .ok b) →
      ((loginAdmin S B db email password).status = 404 ↔ ∀ a ∈ db.admins, a.email ≠ email) ∧
      ((loginAdmin S B db email password).status = 401 ↔
        ∃ a, (db.admins.find? fun x => x.email = email) = some a ∧
          B.compare password a.password = .ok false) ∧
      ((loginAdmin S B db email password).status = 404 →
        loginAdmin S B db email password = notFoundResponse "Admin not found") ∧
      ((loginAdmin S B db email password).status = 401 →
        loginAdmin S B db email password = invalidPasswordResponse) ∧
      ((loginAdmin S B db email password).status ≠ 404 →
       (loginAdmin S B db email password).status ≠ 401 →
        ∃ a, (db.admins.find? fun x => x.email = email) = some a ∧
          loginAdmin S B db email password =
            accountResponse "admin"
              [("id", Val.num a.id), ("name", Val.str a.name),
               ("email", Val.str a.email)])) ∧
     ((loginAdmin S B db email password).status = 500 ↔
       (∃ msg, S.rejectSelect (Select.adminByEmail email) = some msg) ∨
       (S.rejectSelect (Select.adminByEmail email) = none ∧
        ∃ a msg, (db.admins.find? fun x => x.email = email) = some a ∧
          B.compare password a.password = .error msg))) := by
  refine ⟨?_, ?_, ?_⟩
  · rw [loginPatient_eq]
    constructor
    · intro hq hc
      rw [hq]
      dsimp only
      cases hf : db.patients.find? (fun x => decide (x.email = email)) with
      | none =>
        have hn := (find?_eq_none_iff_ne (fun x => x.email) email db.patients).mp hf
        simp [notFoundResponse]
        exact hn
      | some x =>
        have hx : ¬ ∀ y ∈ db.patients, y.email ≠ email := by
          intro hall
          have := (find?_eq_none_iff_ne (fun x => x.email) email db.patients).mpr hall
          rw [hf] at this
          cases this
        obtain ⟨b, hb⟩ := hc x hf
        cases b <;>
          simp [accountResponse, invalidPasswordResponse, notFoundResponse, hb, hx]
    · cases hq : S.rejectSelect (Select.patientByEmail email) with
      | some msg => simp [caughtResponse]
      | none =>
        dsimp only
        cases hf : db.patients.find? (fun x => decide (x.email = email)) with
        | none => simp [notFoundResponse]
        | some x =>
          cases hb : B.compare password x.password with
          | error msg => simp [caughtResponse, hb]
          | ok b =>
            cases b <;> simp [accountResponse, invalidPasswordResponse, hb]
  · rw [loginDoctor_eq]
    constructor
    · intro hq hc
      rw [hq]
      dsimp only
      cases hf : db.doctors.find? (fun x => decide (x.email = email)) with
      | none =>
        have hn := (find?_eq_none_iff_ne (fun x => x.email) email db.doctors).mp hf
        simp [notFoundResponse]
        exact hn
      | some x =>
        have hx : ¬ ∀ y ∈ db.doctors, y.email ≠ email := by
          intro hall
          have := (find?_eq_none_iff_ne (fun x => x.email) email db.doctors).mpr hall
          rw [hf] at this
          cases this
        obtain ⟨b, hb⟩ := hc x hf
        cases b <;>
          simp [accountResponse, invalidPasswordResponse, notFoundResponse, hb, hx]
    · cases hq : S.rejectSelect (Select.doctorByEmail email) with
      | some msg => simp [caughtResponse]
      | none =>
        dsimp only
        cases hf : db.doctors.find? (fun x => decide (x.email = email)) with
        | none => simp [notFoundResponse]
        | some x =>
          cases hb : B.compare password x.password with
          | error msg => simp [caughtResponse, hb]
          | ok b =>
            cases b <;> simp [accountResponse, invalidPasswordResponse, hb]
  · rw [loginAdmin_eq]
    constructor
    · intro hq hc
      rw [hq]
      dsimp only
      cases hf : db.admins.find? (fun x => decide (x.email = email)) with
      | none =>
        have hn := (find?_eq_none_iff_ne (fun x => x.email) email db.admins).mp hf
        simp [notFoundResponse]
        exact hn
      | some x =>
        have hx : ¬ ∀ y ∈ db.admins, y.email ≠ email := by
          intro hall
          have := (find?_eq_none_iff_ne (fun x => x.email) email db.admins).mpr hall
          rw [hf] at this
          cases this
        obtain ⟨b, hb⟩ := hc x hf
        cases b <;>
          simp [accountResponse, invalidPasswordResponse, notFoundResponse, hb, hx]
    · cases hq : S.rejectSelect (Select.adminByEmail email) with
      | some msg => simp [caughtResponse]
      | none =>
        dsimp only
        cases hf : db.admins.find? (fun x => decide (x.email = email)) with
        | none => simp [notFoundResponse]
        | some x =>
          cases hb : B.compare password x.password with
          | error msg => simp [caughtResponse, hb]
          | ok b =>
            cases b <;> simp [accountResponse, invalidPasswordResponse, hb]

/-- Witness of `login_classification`: in `bookedDb`, with no error raised,
Ann logs in with a password her hash starts with, doctor Dee is refused with a
password that does not verify, and an admin login finds no row. -/
theorem login_classification_witness :
    (∃ p, (bookedDb.patients.find? fun x => x.email = "ann@x.org") = some p ∧
      loginPatient openSchema toyBcrypt bookedDb "ann@x.org" (some "pw") =
        accountResponse "patient"
          [("id", Val.num p.id), ("name", Val.str p.name), ("email", Val.str p.email)]) ∧
    loginDoctor openSchema toyBcrypt bookedDb "dee@x.org" (some "pw") =
      invalidPasswordResponse ∧
    loginAdmin openSchema toyBcrypt bookedDb "root@x.org" (some "pw") =
      notFoundResponse "Admin not found" :=
  ⟨((login_classification openSchema toyBcrypt bookedDb "ann@x.org" (some "pw")).1.1 rfl
      (fun _ _ => ⟨_, rfl⟩)).2.2.2.2 (by decide) (by decide),
   ((login_classification openSchema toyBcrypt bookedDb "dee@x.org" (some "pw")).2.1.1 rfl
      (fun _ _ => ⟨_, rfl⟩)).2.2.2.1 (by decide),
   ((login_classification openSchema toyBcrypt bookedDb "root@x.org" (some "pw")).2.2.1 rfl
      (fun _ _ => ⟨_, rfl⟩)).2.2.1 (by decide)⟩


/-! ## Password non-disclosure -/

theorem listed_withoutPassword_patients (l : List Patient) :
    (l.map Patient.withoutPassword).map Patient.listed = l.map Patient.listed := by
  rw [List.map_map]
  rfl

theorem listed_withoutPassword_doctors (l : List Doctor) :
    (l.map Doctor.withoutPassword).map Doctor.listed = l.map Doctor.listed := by
  rw [List.map_map]
  rfl

/-- C10.  No register or login response for patients, doctors or admins has a
member named `password`, and no row of a patient or doctor listing has one;
two stores whose patients (doctors) differ only in the stored hashes admit the
same answers of the patient (doctor) listing; and in two stores whose accounts
differ only in the stored hashes a login gives the same response whenever the
password check has the same outcome in both. -/
theorem password_not_disclosed (S : Schema) (B : Bcrypt) :
    (∀ (genId now salt : Nat) (db : Db) (req : RegisterRequest),
      "password" ∉ (registerPatient S B genId now salt db req).2.keys) ∧
    (∀ (genId now salt : Nat) (db : Db) (req : RegisterDoctorRequest),
      "password" ∉ (registerDoctor S B genId now salt db req).2.keys) ∧
    (∀ (genId salt : Nat) (db : Db) (req : RegisterRequest),
      "password" ∉ (registerAdmin S B genId salt db req).2.keys) ∧
    (∀ (db : Db) (email : String) (password : Option String),
      "password" ∉ (loginPatient S B db email password).keys ∧
      "password" ∉ (loginDoctor S B db email password).keys ∧
      "password" ∉ (loginAdmin S B db email password).keys) ∧
    (∀ (db : Db),
      (∀ out, listPatients S db (.rows out) →
        ∀ row ∈ out, "password" ∉ row.toRecord.map Prod.fst) ∧
      (∀ out, listDoctors S db (.rows out) →
        ∀ row ∈ out, "password" ∉ row.toRecord.map Prod.fst)) ∧
    (∀ (db1 db2 : Db),
      db1.patients.map Patient.withoutPassword = db2.patients.map Patient.withoutPassword →
      ∀ resp, listPatients S db1 resp ↔ listPatients S db2 resp) ∧
    (∀ (db1 db2 : Db),
      db1.doctors.map Doctor.withoutPassword = db2.doctors.map Doctor.withoutPassword →
      ∀ resp, listDoctors S db1 resp ↔ listDoctors S db2 resp) ∧
    (∀ (db1 db2 : Db) (email : String) (password : Option String),
      db1.patients.map Patient.withoutPassword = db2.patients.map Patient.withoutPassword →
      patientPasswordCheck B db1 email password = patientPasswordCheck B db2 email password →
      loginPatient S B db1 email password = loginPatient S B db2 email password) ∧
    (∀ (db1 db2 : Db) (email : String) (password : Option String),
      db1.doctors.map Doctor.withoutPassword = db2.doctors.map Doctor.withoutPassword →
      doctorPasswordCheck B db1 email password = doctorPasswordCheck B db2 email password →
      loginDoctor S B db1 email password = loginDoctor S B db2 email password) ∧
    (∀ (db1 db2 : Db) (email : String) (password : Option String),
      db1.admins.map Admin.withoutPassword = db2.admins.map Admin.withoutPassword →
      adminPasswordCheck B db1 email password = adminPasswordCheck B db2 email password →
      loginAdmin S B db1 email password = loginAdmin S B db2 email password) := by
  refine ⟨?_, ?_, ?_, ?_, ?_, ?_, ?_, ?_, ?_, ?_⟩
  · intro genId now salt db req
    unfold registerPatient
    split
    · simp [AuthResponse.keys, caughtResponse]
    · dsimp only
      split <;> simp [AuthResponse.keys, caughtResponse, accountResponse]
  · intro genId now salt db req
    unfold registerDoctor
    split
    · simp [AuthResponse.keys, caughtResponse]
    · dsimp only
      split <;> simp [AuthResponse.keys, caughtResponse, accountResponse]
  · intro genId salt db req
    unfold registerAdmin
    split
    · simp [AuthResponse.keys, caughtResponse]
    · dsimp only
      split <;> simp [AuthResponse.keys, caughtResponse, accountResponse]
  · intro db email password
    rw [loginPatient_eq, loginDoctor_eq, loginAdmin_eq]
    refine ⟨?_, ?_, ?_⟩ <;> split <;> (try split) <;> (try split)
    all_goals simp [AuthResponse.keys, notFoundResponse, invalidPasswordResponse,
      accountResponse, caughtResponse]
  · intro db
    constructor
    · intro out _ row _
      simp [PatientListing.toRecord]
    · intro out _ row _
      simp [DoctorListing.toRecord]
  · intro db1 db2 h resp
    have hl : db1.patients.map Patient.listed = db2.patients.map Patient.listed := by
      rw [← listed_withoutPassword_patients db1.patients, h,
        listed_withoutPassword_patients db2.patients]
    cases resp <;> simp only [listPatients, hl]
  · intro db1 db2 h resp
    have hl : db1.doctors.map Doctor.listed = db2.doctors.map Doctor.listed := by
      rw [← listed_withoutPassword_doctors db1.doctors, h,
        listed_withoutPassword_doctors db2.doctors]
    cases resp <;> simp only [listDoctors, hl]
  · intro db1 db2 email password hsame hcheck
    have hfind := congrArg (List.find? fun x : Patient => decide (x.email = email)) hsame
    rw [List.find?_map, List.find?_map] at hfind
    have hcomp : ((fun x : Patient => decide (x.email = email)) ∘ Patient.withoutPassword) =
        fun x : Patient => decide (x.email = email) := rfl
    rw [hcomp] at hfind
    unfold patientPasswordCheck at hcheck
    rw [loginPatient_eq, loginPatient_eq]
    cases hq : S.rejectSelect (Select.patientByEmail email) with
    | some msg => rfl
    | none =>
      dsimp only
      cases h1 : db1.patients.find? (fun x => decide (x.email = email)) with
      | none =>
        cases h2 : db2.patients.find? (fun x => decide (x.email = email)) with
        | none => rfl
        | some y => rw [h1, h2] at hfind; cases hfind
      | some x =>
        cases h2 : db2.patients.find? (fun x => decide (x.email = email)) with
        | none => rw [h1, h2] at hfind; cases hfind
        | some y =>
          rw [h1, h2] at hfind hcheck
          simp only [Option.map_some', Option.some.injEq] at hfind hcheck
          cases x; cases y
          simp only [Patient.withoutPassword, Patient.mk.injEq] at hfind
          obtain ⟨e1, e2, e3, -, e5⟩ := hfind
          simp only at hcheck ⊢
          subst e1 e2 e3
          rw [hcheck]
  · intro db1 db2 email password hsame hcheck
    have hfind := congrArg (List.find? fun x : Doctor => decide (x.email = email)) hsame
    rw [List.find?_map, List.find?_map] at hfind
    have hcomp : ((fun x : Doctor => decide (x.email = email)) ∘ Doctor.withoutPassword) =
        fun x : Doctor => decide (x.email = email) := rfl
    rw [hcomp] at hfind
    unfold doctorPasswordCheck at hcheck
    rw [loginDoctor_eq, loginDoctor_eq]
    cases hq : S.rejectSelect (Select.doctorByEmail email) with
    | some msg => rfl
    | none =>
      dsimp only
      cases h1 : db1.doctors.find? (fun x => decide (x.email = email)) with
      | none =>
        cases h2 : db2.doctors.find? (fun x => decide (x.email = email)) with
        | none => rfl
        | some y => rw [h1, h2] at hfind; cases hfind
      | some x =>
        cases h2 : db2.doctors.find? (fun x => decide (x.email = email)) with
        | none => rw [h1, h2] at hfind; cases hfind
        | some y =>
          rw [h1, h2] at hfind hcheck
          simp only [Option.map_some', Option.some.injEq] at hfind hcheck
          cases x; cases y
          simp only [Doctor.withoutPassword, Doctor.mk.injEq] at hfind
          obtain ⟨e1, e2, e3, -, e5⟩ := hfind
          simp only at hcheck ⊢
          subst e1 e2 e3
          rw [hcheck]
          obtain ⟨-, e6, -⟩ := e5
          subst e6
          rfl
  · intro db1 db2 email password hsame hcheck
    have hfind := congrArg (List.find? fun x : Admin => decide (x.email = email)) hsame
    rw [List.find?_map, List.find?_map] at hfind
    have hcomp : ((fun x : Admin => decide (x.email = email)) ∘ Admin.withoutPassword) =
        fun x : Admin => decide (x.email = email) := rfl
    rw [hcomp] at hfind
    unfold adminPasswordCheck at hcheck
    rw [loginAdmin_eq, loginAdmin_eq]
    cases hq : S.rejectSelect (Select.adminByEmail email) with
    | some msg => rfl
    | none =>
      dsimp only
      cases h1 : db1.admins.find? (fun x => decide (x.email = email)) with
      | none =>
        cases h2 : db2.admins.find? (fun x => decide (x.email = email)) with
        | none => rfl
        | some y => rw [h1, h2] at hfind; cases hfind
      | some x =>
        cases h2 : db2.admins.find? (fun x => decide (x.email = email)) with
        | none => rw [h1, h2] at hfind; cases hfind
        | some y =>
          rw [h1, h2] at hfind hcheck
          simp only [Option.map_some', Option.some.injEq] at hfind hcheck
          cases x; cases y
          simp only [Admin.withoutPassword, Admin.mk.injEq] at hfind
          obtain ⟨e1, e2, e3, -, e5⟩ := hfind
          simp only at hcheck ⊢
          subst e1 e2 e3
          rw [hcheck]

/-- Witness of `password_not_disclosed`: `bookedDb` and `rehashedDb` differ in
Ann's stored hash only, admit the same patient listing, and answer Ann's login
with the same success response. -/
theorem password_not_disclosed_witness :
    bookedDb ≠ rehashedDb ∧
    (listPatients openSchema bookedDb (.rows [ann.listed, bob.listed]) ↔
      listPatients openSchema rehashedDb (.rows [ann.listed, bob.listed])) ∧
    listPatients openSchema rehashedDb (.rows [ann.listed, bob.listed]) ∧
    loginPatient openSchema toyBcrypt bookedDb "ann@x.org" (some "pw") =
      loginPatient openSchema toyBcrypt rehashedDb "ann@x.org" (some "pw") ∧
    (loginPatient openSchema toyBcrypt rehashedDb "ann@x.org" (some "pw")).status = 200 :=
  have h := password_not_disclosed openSchema toyBcrypt
  ⟨by decide,
   h.2.2.2.2.2.1 bookedDb rehashedDb (by decide) _,
   by decide,
   h.2.2.2.2.2.2.2.1 bookedDb rehashedDb "ann@x.org" (some "pw") (by decide) rfl,
   by decide⟩

end MediBook
